import Mathlib

/-!
Verification of the AEAD dispatch layer declared in `src/crypto/cipher/aead.h`.

The header declares the public interface: the opaque `EVP_AEAD` descriptors,
the `EVP_AEAD_CTX` context, the utility queries, `EVP_AEAD_CTX_init`,
`EVP_AEAD_CTX_seal` and `EVP_AEAD_CTX_open`, together with their documented
contracts (nonce-length rule, aliasing rule, capacity rule, atomicity).  The
bodies of those functions and the concrete descriptor tables are not part of
the sources, so the operational definitions below are modelled from the spec,
faithful to its words; the constants (`EVP_AEAD_MAX_OVERHEAD`,
`EVP_AEAD_DEFAULT_TAG_LENGTH`) and the shape of the checks come from the
header itself.

Bytes are modelled as natural numbers; flipping one bit of a byte is xor-ing
it with a power of two.  Buffers are caller-owned lists; the aliasing rule of
the header ("if |in| and |out| alias then |out| must be <= |in|", and |out|
may not point inside the input data) is modelled on start addresses.
-/

namespace Aead

/-- The error taxonomy of the spec (section 7). -/
inductive Error : Type where
  | KeyLengthMismatch
  | InvalidTagLength
  | NonceLengthMismatch
  | InvalidBufferOverlap
  | OutputBufferTooSmall
  | AuthenticationFailed
  | PrimitiveSetupFailed
deriving DecidableEq, Repr

/-- Modelled from the spec: the algorithm descriptor (the `EVP_AEAD` struct is
opaque in `aead.h`; its definition is not under the sources).  It carries the
immutable per-algorithm metadata: key length, nonce length, maximum ciphertext
overhead, maximum tag length, default tag length, plus an algorithm identifier
standing for the behaviour bindings. -/
structure EVP_AEAD : Type where
  alg_id : Nat
  key_len : Nat
  nonce_len : Nat
  overhead : Nat
  max_tag_len : Nat
  default_tag_len : Nat
deriving DecidableEq, Repr

/-- `EVP_aead_aes_128_gcm`: 128-bit-key block-cipher-mode descriptor.
Modelled from the spec: the descriptor table is not under the sources. -/
def EVP_aead_aes_128_gcm : EVP_AEAD :=
  { alg_id := 1, key_len := 16, nonce_len := 12, overhead := 16,
    max_tag_len := 16, default_tag_len := 16 }

/-- `EVP_aead_aes_256_gcm`: 256-bit-key block-cipher-mode descriptor.
Modelled from the spec: the descriptor table is not under the sources. -/
def EVP_aead_aes_256_gcm : EVP_AEAD :=
  { alg_id := 2, key_len := 32, nonce_len := 12, overhead := 16,
    max_tag_len := 16, default_tag_len := 16 }

/-- `EVP_aead_chacha20_poly1305`: stream-cipher-with-MAC descriptor.
Modelled from the spec: the descriptor table is not under the sources. -/
def EVP_aead_chacha20_poly1305 : EVP_AEAD :=
  { alg_id := 3, key_len := 32, nonce_len := 12, overhead := 16,
    max_tag_len := 16, default_tag_len := 16 }

/-- The built-in descriptors exposed by `aead.h`. -/
def builtin_aeads : List EVP_AEAD :=
  [EVP_aead_aes_128_gcm, EVP_aead_aes_256_gcm, EVP_aead_chacha20_poly1305]

/-- `EVP_AEAD_key_length` (aead.h line 109). -/
def EVP_AEAD_key_length (aead : EVP_AEAD) : Nat := aead.key_len

/-- `EVP_AEAD_nonce_length` (aead.h line 113). -/
def EVP_AEAD_nonce_length (aead : EVP_AEAD) : Nat := aead.nonce_len

/-- `EVP_AEAD_max_overhead` (aead.h line 117). -/
def EVP_AEAD_max_overhead (aead : EVP_AEAD) : Nat := aead.overhead

/-- `EVP_AEAD_max_tag_len` (aead.h line 122). -/
def EVP_AEAD_max_tag_len (aead : EVP_AEAD) : Nat := aead.max_tag_len

/-- `EVP_AEAD_MAX_OVERHEAD` (aead.h line 138): the maximum overhead used by
any AEAD defined in the header. -/
def EVP_AEAD_MAX_OVERHEAD : Nat := 16

/-- `EVP_AEAD_DEFAULT_TAG_LENGTH` (aead.h line 143): the sentinel tag-length
request meaning "use the default tag length". -/
def EVP_AEAD_DEFAULT_TAG_LENGTH : Nat := 0

/-- Modelled from the spec: one keystream byte of the external primitive's
stream transform (the concrete cipher bodies are external collaborators, not
under the sources).  Any concrete function of (algorithm, key, nonce,
position) serves; it is fixed, deterministic and key/nonce dependent. -/
def keystream_byte (alg : Nat) (key nonce : List Nat) (i : Nat) : Nat :=
  (alg + 3 * key.sum + 5 * nonce.sum + 7 * i) % 256

/-- Modelled from the spec: the primitive's length-preserving stream
transform, xor-ing each payload byte with the keystream byte at its position.
Xor-ing twice with the same keystream restores the payload, which realises the
primitive contract `open(state, nonce, ad, seal(state, nonce, ad, p)) = p`. -/
def xor_keystream (alg : Nat) (key nonce : List Nat) : Nat → List Nat → List Nat
  | _, [] => []
  | i, b :: bs => (b ^^^ keystream_byte alg key nonce i) :: xor_keystream alg key nonce (i + 1) bs

/-- Xor of all bytes of a list; one summand of the model authenticator. -/
def xor_sum : List Nat → Nat
  | [] => 0
  | b :: bs => b ^^^ xor_sum bs

/-- Modelled from the spec: one byte of the primitive's authenticator over the
additional data and the encrypted payload.  Xor parity makes every single-bit
change of `ad` or `ct` change the byte. -/
def tag_byte (alg : Nat) (key nonce ad ct : List Nat) : Nat :=
  keystream_byte alg key nonce 0 ^^^ xor_sum ad ^^^ xor_sum ct

/-- Modelled from the spec: the authentication tag of the configured length,
appended to the encrypted payload by the seal binding. -/
def tag_bytes (alg : Nat) (tl : Nat) (key nonce ad ct : List Nat) : List Nat :=
  List.replicate tl (tag_byte alg key nonce ad ct)

/-- Modelled from the spec: the descriptor's seal binding
`seal(state, nonce, ad, plaintext) -> ciphertext` (external primitive, not
under the sources): encrypted payload followed by the authentication tag. -/
def aead_model_seal (alg : Nat) (key : List Nat) (tl : Nat)
    (nonce ad pt : List Nat) : List Nat :=
  let ct := xor_keystream alg key nonce 0 pt
  ct ++ tag_bytes alg tl key nonce ad ct

/-- Modelled from the spec: the descriptor's open binding
`open(state, nonce, ad, ciphertext) -> plaintext|failure` (external primitive,
not under the sources): verify the authentication tag against the additional
data and the ciphertext before releasing any plaintext. -/
def aead_model_open (alg : Nat) (key : List Nat) (tl : Nat)
    (nonce ad ct : List Nat) : Option (List Nat) :=
  if ct.length < tl then none
  else
    let payload := ct.take (ct.length - tl)
    let stored := ct.drop (ct.length - tl)
    if stored = tag_bytes alg tl key nonce ad payload then
      some (xor_keystream alg key nonce 0 payload)
    else none

/-- The `EVP_AEAD_CTX` of aead.h lines 129-134: the bound descriptor plus the
algorithm state.  The opaque `aead_state` is modelled by the key retained
after the setup binding, together with the resolved tag length. -/
structure EVP_AEAD_CTX : Type where
  aead : EVP_AEAD
  key : List Nat
  tag_len : Nat
deriving DecidableEq, Repr

/-- Modelled from the spec: `EVP_AEAD_CTX_init` (declared at aead.h lines
151-153; its body is not under the sources).  Checks the key length, checks
the requested tag length against the descriptor's maximum, and resolves a
zero request to the descriptor's default tag length. -/
def EVP_AEAD_CTX_init (aead : EVP_AEAD) (key : List Nat) (tag_len : Nat) :
    Except Error EVP_AEAD_CTX :=
  if key.length ≠ aead.key_len then .error .KeyLengthMismatch
  else if aead.max_tag_len < tag_len then .error .InvalidTagLength
  else .ok { aead := aead, key := key,
             tag_len := if tag_len = EVP_AEAD_DEFAULT_TAG_LENGTH
                        then aead.default_tag_len else tag_len }

/-- The aliasing rule of aead.h lines 84-88 and 177/201: the operations may
work in place (`out = in`) or shift left (`out < in`), but `out` may not point
inside the input data.  Buffers are modelled by start addresses. -/
def check_alias (in_ptr in_len out_ptr : Nat) : Bool :=
  decide (out_ptr ≤ in_ptr) || decide (in_ptr + in_len ≤ out_ptr)

/-- Outcome of a seal or open call: the int return plus `*out_len` plus the
bytes placed in the observable output region. -/
inductive AeadResult : Type where
  | ok (out_len : Nat) (out : List Nat)
  | fail (e : Error) (out_len : Nat) (out : List Nat)
deriving DecidableEq, Repr

/-- The error of a call outcome, `none` on success. -/
def AeadResult.errOf : AeadResult → Option Error
  | .ok _ _ => none
  | .fail e _ _ => some e

/-- Modelled from the spec: `EVP_AEAD_CTX_seal` (declared at aead.h lines
178-181; its body is not under the sources).  Validations in the spec's
order — nonce length, aliasing, output capacity at least
`in_len + resolved tag length` — then delegation to the seal binding.  Every
failure reports `*out_len = 0` and writes nothing. -/
def EVP_AEAD_CTX_seal (ctx : EVP_AEAD_CTX) (out_ptr max_out_len : Nat)
    (nonce : List Nat) (in_ptr : Nat) (input ad : List Nat) : AeadResult :=
  if nonce.length ≠ ctx.aead.nonce_len then .fail .NonceLengthMismatch 0 []
  else if !check_alias in_ptr input.length out_ptr then .fail .InvalidBufferOverlap 0 []
  else if max_out_len < input.length + ctx.tag_len then .fail .OutputBufferTooSmall 0 []
  else
    let ct := aead_model_seal ctx.aead.alg_id ctx.key ctx.tag_len nonce ad input
    .ok ct.length ct

/-- Modelled from the spec: `EVP_AEAD_CTX_open` (declared at aead.h lines
202-205; its body is not under the sources).  Mirrors seal's validation
shape — nonce length, aliasing, output capacity at least the ciphertext
length — then delegates to the open binding, failing with
`AuthenticationFailed`, zero length and no output when the tag does not
verify. -/
def EVP_AEAD_CTX_open (ctx : EVP_AEAD_CTX) (out_ptr max_out_len : Nat)
    (nonce : List Nat) (in_ptr : Nat) (input ad : List Nat) : AeadResult :=
  if nonce.length ≠ ctx.aead.nonce_len then .fail .NonceLengthMismatch 0 []
  else if !check_alias in_ptr input.length out_ptr then .fail .InvalidBufferOverlap 0 []
  else if max_out_len < input.length then .fail .OutputBufferTooSmall 0 []
  else
    match aead_model_open ctx.aead.alg_id ctx.key ctx.tag_len nonce ad input with
    | none => .fail .AuthenticationFailed 0 []
    | some pt => .ok pt.length pt

/-- Spec-side overlap wording (section 4.5): the two regions are disjoint. -/
def regions_disjoint (in_ptr in_len out_ptr out_cap : Nat) : Prop :=
  in_ptr + in_len ≤ out_ptr ∨ out_ptr + out_cap ≤ in_ptr

/-- Spec-side overlap wording (section 4.5): the two regions are identical. -/
def regions_identical (in_ptr in_len out_ptr out_cap : Nat) : Prop :=
  in_ptr = out_ptr ∧ in_len = out_cap

/-- Spec-side overlap wording (section 4.5): the call is allowed when the
regions are disjoint, identical, or the output starts at or before the input
region's start. -/
def overlap_allowed_spec (in_ptr in_len out_ptr out_cap : Nat) : Prop :=
  regions_disjoint in_ptr in_len out_ptr out_cap ∨
    regions_identical in_ptr in_len out_ptr out_cap ∨ out_ptr ≤ in_ptr

/-! ### Helper lemmas about the model primitive -/

lemma xor_cancel_right (a b : Nat) : a ^^^ b ^^^ b = a := by
  rw [Nat.xor_assoc, Nat.xor_self, Nat.xor_zero]

lemma xor_ne_of_ne_zero (a b : Nat) (hb : b ≠ 0) : a ^^^ b ≠ a := by
  intro h
  apply hb
  have h2 : a ^^^ (a ^^^ b) = a ^^^ a := by rw [h]
  rwa [← Nat.xor_assoc, Nat.xor_self, Nat.zero_xor] at h2

lemma two_pow_ne_zero (k : Nat) : 2 ^ k ≠ 0 :=
  (Nat.pos_pow_of_pos k (by decide)).ne'

lemma xor_keystream_length (alg : Nat) (key nonce : List Nat) :
    ∀ (i : Nat) (l : List Nat), (xor_keystream alg key nonce i l).length = l.length := by
  intro i l
  induction l generalizing i with
  | nil => rfl
  | cons b bs ih => simp [xor_keystream, ih]

lemma xor_keystream_involutive (alg : Nat) (key nonce : List Nat) :
    ∀ (i : Nat) (l : List Nat),
      xor_keystream alg key nonce i (xor_keystream alg key nonce i l) = l := by
  intro i l
  induction l generalizing i with
  | nil => rfl
  | cons b bs ih => simp [xor_keystream, ih, xor_cancel_right]

lemma xor_sum_flip (b : Nat) :
    ∀ (u : List Nat) (x : Nat) (v : List Nat),
      xor_sum (u ++ (x ^^^ b) :: v) = xor_sum (u ++ x :: v) ^^^ b := by
  intro u x v
  induction u with
  | nil =>
      show (x ^^^ b) ^^^ xor_sum v = (x ^^^ xor_sum v) ^^^ b
      rw [Nat.xor_assoc, Nat.xor_comm b (xor_sum v), ← Nat.xor_assoc]
  | cons a u ih =>
      show a ^^^ xor_sum (u ++ (x ^^^ b) :: v) = (a ^^^ xor_sum (u ++ x :: v)) ^^^ b
      rw [ih, ← Nat.xor_assoc]

lemma replicate_ne_replicate (t : Nat) (ht : t ≠ 0) (a b : Nat) (hab : a ≠ b) :
    List.replicate t a ≠ List.replicate t b := by
  cases t with
  | zero => exact absurd rfl ht
  | succ n =>
      intro h
      rw [List.replicate_succ, List.replicate_succ] at h
      exact hab (List.cons.inj h).1

lemma append_cons_ne (u v : List Nat) (x y : Nat) (hxy : x ≠ y) :
    u ++ x :: v ≠ u ++ y :: v := by
  intro h
  exact hxy (List.cons.inj (List.append_cancel_left h)).1

lemma aead_model_seal_length (alg : Nat) (key : List Nat) (tl : Nat)
    (nonce ad pt : List Nat) :
    (aead_model_seal alg key tl nonce ad pt).length = pt.length + tl := by
  simp [aead_model_seal, tag_bytes, xor_keystream_length]

lemma aead_model_open_seal (alg : Nat) (key : List Nat) (tl : Nat)
    (nonce ad pt : List Nat) :
    aead_model_open alg key tl nonce ad (aead_model_seal alg key tl nonce ad pt)
      = some pt := by
  unfold aead_model_open aead_model_seal
  have hlen : (xor_keystream alg key nonce 0 pt).length = pt.length :=
    xor_keystream_length alg key nonce 0 pt
  have hlen2 : (xor_keystream alg key nonce 0 pt
      ++ tag_bytes alg tl key nonce ad (xor_keystream alg key nonce 0 pt)).length
      = pt.length + tl := by
    simp [tag_bytes, hlen]
  rw [hlen2]
  have hnot : ¬ (pt.length + tl < tl) := by omega
  simp only [hnot, if_false]
  have hsub : pt.length + tl - tl = (xor_keystream alg key nonce 0 pt).length := by
    omega
  rw [hsub, List.take_left, List.drop_left]
  simp [xor_keystream_involutive]

lemma builtin_default_tag_len_ne_zero (aead : EVP_AEAD) (h : aead ∈ builtin_aeads) :
    aead.default_tag_len ≠ 0 := by
  simp [builtin_aeads] at h
  rcases h with rfl | rfl | rfl <;> decide

lemma init_ok_elim (aead : EVP_AEAD) (key : List Nat) (tag_len : Nat)
    (ctx : EVP_AEAD_CTX) (h : EVP_AEAD_CTX_init aead key tag_len = .ok ctx) :
    key.length = aead.key_len ∧ tag_len ≤ aead.max_tag_len ∧
      ctx = { aead := aead, key := key,
              tag_len := if tag_len = EVP_AEAD_DEFAULT_TAG_LENGTH
                         then aead.default_tag_len else tag_len } := by
  unfold EVP_AEAD_CTX_init at h
  by_cases h1 : key.length ≠ aead.key_len
  · simp [h1] at h
  · by_cases h2 : aead.max_tag_len < tag_len
    · simp [h1, h2] at h
    · rw [if_neg h1, if_neg h2] at h
      exact ⟨not_not.mp h1, Nat.le_of_not_lt h2, (Except.ok.inj h).symm⟩

lemma xor_swap_right (a b c : Nat) : (a ^^^ b) ^^^ c = (a ^^^ c) ^^^ b := by
  rw [Nat.xor_assoc, Nat.xor_comm b c, ← Nat.xor_assoc]

lemma open_fail_auth (ctx : EVP_AEAD_CTX) (out_ptr max_out_len : Nat)
    (nonce : List Nat) (in_ptr : Nat) (input ad : List Nat)
    (hn : nonce.length = ctx.aead.nonce_len)
    (halias : check_alias in_ptr input.length out_ptr = true)
    (hcap : input.length ≤ max_out_len)
    (hnone : aead_model_open ctx.aead.alg_id ctx.key ctx.tag_len nonce ad input
      = none) :
    EVP_AEAD_CTX_open ctx out_ptr max_out_len nonce in_ptr input ad
      = .fail .AuthenticationFailed 0 [] := by
  rw [EVP_AEAD_CTX_open, if_neg (by simp [hn]), if_neg (by simp [halias]),
    if_neg (Nat.not_lt.mpr hcap), hnone]

lemma model_open_mismatch (alg : Nat) (key : List Nat) (tl : Nat)
    (nonce ad P stored : List Nat)
    (hst : stored.length = tl)
    (hne : stored ≠ tag_bytes alg tl key nonce ad P) :
    aead_model_open alg key tl nonce ad (P ++ stored) = none := by
  unfold aead_model_open
  have hlen : (P ++ stored).length = P.length + tl := by simp [hst]
  have hidx : (P ++ stored).length - tl = P.length := by omega
  have hnot : ¬ ((P ++ stored).length < tl) := by omega
  rw [if_neg hnot, hidx, List.take_left, List.drop_left, if_neg hne]

lemma aead_model_open_length (alg : Nat) (key : List Nat) (tl : Nat)
    (nonce ad ct pt : List Nat)
    (h : aead_model_open alg key tl nonce ad ct = some pt) :
    pt.length ≤ ct.length := by
  unfold aead_model_open at h
  split at h
  · exact absurd h (by simp)
  · dsimp only at h
    split at h
    · rw [Option.some.injEq] at h
      subst h
      rw [xor_keystream_length]
      simp [List.length_take]
    · exact absurd h (by simp)

/-- C1: for every built-in descriptor, every key of the descriptor's key
length, every nonce of the descriptor's nonce length, every additional data
and plaintext, opening the sealed message produced by a context constructed
from the descriptor and the key, with the same nonce and additional data,
succeeds and returns exactly the plaintext. -/
theorem seal_open_roundtrip (aead : EVP_AEAD) (haead : aead ∈ builtin_aeads)
    (key nonce ad pt : List Nat) (tl_req : Nat) (ctx : EVP_AEAD_CTX)
    (hk : key.length = aead.key_len) (hn : nonce.length = aead.nonce_len)
    (hinit : EVP_AEAD_CTX_init aead key tl_req = .ok ctx) :
    EVP_AEAD_CTX_seal ctx 0 (pt.length + ctx.tag_len) nonce 0 pt ad
      = .ok (pt.length + ctx.tag_len)
          (aead_model_seal aead.alg_id key ctx.tag_len nonce ad pt) ∧
    EVP_AEAD_CTX_open ctx 0 (pt.length + ctx.tag_len) nonce 0
        (aead_model_seal aead.alg_id key ctx.tag_len nonce ad pt) ad
      = .ok pt.length pt := by
  obtain ⟨-, -, hc⟩ := init_ok_elim aead key tl_req ctx hinit
  subst hc
  constructor
  · simp [EVP_AEAD_CTX_seal, hn, check_alias, aead_model_seal_length]
  · simp [EVP_AEAD_CTX_open, hn, check_alias, aead_model_seal_length,
      aead_model_open_seal, xor_keystream_length]

/-- Witness for C1 at a concrete built-in descriptor, key, nonce, additional
data and plaintext. -/
theorem seal_open_roundtrip_witness :
    EVP_AEAD_CTX_seal
        { aead := EVP_aead_aes_128_gcm, key := List.replicate 16 0, tag_len := 16 }
        0 (2 + 16) (List.replicate 12 1) 0 [9, 8] [5]
      = .ok (2 + 16)
          (aead_model_seal 1 (List.replicate 16 0) 16 (List.replicate 12 1) [5] [9, 8]) ∧
    EVP_AEAD_CTX_open
        { aead := EVP_aead_aes_128_gcm, key := List.replicate 16 0, tag_len := 16 }
        0 (2 + 16) (List.replicate 12 1) 0
        (aead_model_seal 1 (List.replicate 16 0) 16 (List.replicate 12 1) [5] [9, 8]) [5]
      = .ok 2 [9, 8] :=
  seal_open_roundtrip EVP_aead_aes_128_gcm (by decide) (List.replicate 16 0)
    (List.replicate 12 1) [5] [9, 8] 0
    { aead := EVP_aead_aes_128_gcm, key := List.replicate 16 0, tag_len := 16 }
    (by decide) (by decide) rfl

/-- C7: context construction fails with `KeyLengthMismatch` exactly when the
key length differs from the descriptor's required key length; with a correct
key it fails with `InvalidTagLength` when the requested tag length exceeds the
descriptor's maximum; and a requested tag length of zero is resolved to the
descriptor's (nonzero) default tag length. -/
theorem init_validation (aead : EVP_AEAD) (haead : aead ∈ builtin_aeads)
    (key : List Nat) (tag_len : Nat) :
    (EVP_AEAD_CTX_init aead key tag_len = .error .KeyLengthMismatch ↔
        key.length ≠ aead.key_len) ∧
    (key.length = aead.key_len → aead.max_tag_len < tag_len →
        EVP_AEAD_CTX_init aead key tag_len = .error .InvalidTagLength) ∧
    (key.length = aead.key_len → tag_len = EVP_AEAD_DEFAULT_TAG_LENGTH →
        EVP_AEAD_CTX_init aead key tag_len
            = .ok { aead := aead, key := key, tag_len := aead.default_tag_len } ∧
          aead.default_tag_len ≠ 0) := by
  refine ⟨?_, ?_, ?_⟩
  · by_cases h1 : key.length ≠ aead.key_len
    · simp [EVP_AEAD_CTX_init, h1]
    · rw [not_not] at h1
      by_cases h2 : aead.max_tag_len < tag_len <;>
        simp [EVP_AEAD_CTX_init, h1, h2]
  · intro h1 h2
    simp [EVP_AEAD_CTX_init, h1, h2]
  · intro h1 h2
    subst h2
    refine ⟨?_, builtin_default_tag_len_ne_zero aead haead⟩
    simp [EVP_AEAD_CTX_init, h1, EVP_AEAD_DEFAULT_TAG_LENGTH]

/-- Witness for C7: constructing a 256-bit-key context with a correct key and
the default-tag-length sentinel resolves the tag length to the descriptor's
default, which is not zero. -/
theorem init_validation_witness :
    EVP_AEAD_CTX_init EVP_aead_aes_256_gcm (List.replicate 32 0) 0
        = .ok { aead := EVP_aead_aes_256_gcm, key := List.replicate 32 0,
                tag_len := EVP_aead_aes_256_gcm.default_tag_len } ∧
      EVP_aead_aes_256_gcm.default_tag_len ≠ 0 :=
  (init_validation EVP_aead_aes_256_gcm (by decide)
      (List.replicate 32 0) 0).2.2 (by decide) rfl

/-- C2: an open call that passes the nonce, aliasing and capacity validations
but whose authentication tag does not verify against the given nonce,
additional data and ciphertext fails with `AuthenticationFailed`, reports
zero bytes written, and writes no plaintext bytes to the observable output
region. -/
theorem open_auth_failure (ctx : EVP_AEAD_CTX) (out_ptr max_out_len : Nat)
    (nonce : List Nat) (in_ptr : Nat) (input ad : List Nat)
    (hn : nonce.length = ctx.aead.nonce_len)
    (halias : check_alias in_ptr input.length out_ptr = true)
    (hcap : input.length ≤ max_out_len)
    (hbad : aead_model_open ctx.aead.alg_id ctx.key ctx.tag_len nonce ad input
      = none) :
    EVP_AEAD_CTX_open ctx out_ptr max_out_len nonce in_ptr input ad
      = .fail .AuthenticationFailed 0 [] := by
  simp [EVP_AEAD_CTX_open, hn, halias, Nat.not_lt.mpr hcap, hbad]

/-- Witness for C2: opening sixteen zero bytes (a ciphertext that was never
sealed) under a 128-bit-key context fails with `AuthenticationFailed` and no
output. -/
theorem open_auth_failure_witness :
    EVP_AEAD_CTX_open
        { aead := EVP_aead_aes_128_gcm, key := List.replicate 16 0, tag_len := 16 }
        0 16 (List.replicate 12 1) 0 (List.replicate 16 0) []
      = .fail .AuthenticationFailed 0 [] :=
  open_auth_failure
    { aead := EVP_aead_aes_128_gcm, key := List.replicate 16 0, tag_len := 16 }
    0 16 (List.replicate 12 1) 0 (List.replicate 16 0) []
    (by decide) (by decide) (by decide) (by decide)

lemma check_alias_iff_spec (in_ptr in_len out_ptr out_cap : Nat) :
    check_alias in_ptr in_len out_ptr = true ↔
      overlap_allowed_spec in_ptr in_len out_ptr out_cap := by
  simp only [check_alias, overlap_allowed_spec, regions_disjoint,
    regions_identical, Bool.or_eq_true, decide_eq_true_eq]
  omega

/-- C4: with the nonce validation passing, a seal or open call is rejected
with `InvalidBufferOverlap` exactly when the input and output regions are
neither disjoint nor identical and the output region starts strictly after
the input region's start; in particular an output starting strictly inside
the input region is always rejected. -/
theorem overlap_policy (ctx : EVP_AEAD_CTX) (nonce : List Nat)
    (hn : nonce.length = ctx.aead.nonce_len)
    (in_ptr out_ptr max_out_len : Nat) (input ad : List Nat) :
    ((EVP_AEAD_CTX_seal ctx out_ptr max_out_len nonce in_ptr input ad).errOf
        = some .InvalidBufferOverlap ↔
      ¬ overlap_allowed_spec in_ptr input.length out_ptr max_out_len) ∧
    ((EVP_AEAD_CTX_open ctx out_ptr max_out_len nonce in_ptr input ad).errOf
        = some .InvalidBufferOverlap ↔
      ¬ overlap_allowed_spec in_ptr input.length out_ptr max_out_len) ∧
    (in_ptr < out_ptr → out_ptr < in_ptr + input.length →
      EVP_AEAD_CTX_seal ctx out_ptr max_out_len nonce in_ptr input ad
          = .fail .InvalidBufferOverlap 0 [] ∧
        EVP_AEAD_CTX_open ctx out_ptr max_out_len nonce in_ptr input ad
          = .fail .InvalidBufferOverlap 0 []) := by
  have hiff := check_alias_iff_spec in_ptr input.length out_ptr max_out_len
  cases hca : check_alias in_ptr input.length out_ptr with
  | false =>
      have hnot : ¬ overlap_allowed_spec in_ptr input.length out_ptr max_out_len :=
        fun h => by simp [hca] at hiff; exact hiff h
      refine ⟨?_, ?_, ?_⟩
      · simp [EVP_AEAD_CTX_seal, hn, hca, AeadResult.errOf, hnot]
      · simp [EVP_AEAD_CTX_open, hn, hca, AeadResult.errOf, hnot]
      · intro h1 h2
        constructor <;> simp [EVP_AEAD_CTX_seal, EVP_AEAD_CTX_open, hn, hca]
  | true =>
      have hallow : overlap_allowed_spec in_ptr input.length out_ptr max_out_len :=
        hiff.mp hca
      refine ⟨?_, ?_, ?_⟩
      · constructor
        · intro h
          exfalso
          rw [EVP_AEAD_CTX_seal] at h
          simp only [hn, ne_eq, not_true_eq_false, if_false, hca,
            Bool.not_true, Bool.false_eq_true] at h
          split at h <;> simp [AeadResult.errOf] at h
        · intro h
          exact absurd hallow h
      · constructor
        · intro h
          exfalso
          rw [EVP_AEAD_CTX_open] at h
          simp only [hn, ne_eq, not_true_eq_false, if_false, hca,
            Bool.not_true, Bool.false_eq_true] at h
          split at h
          · simp [AeadResult.errOf] at h
          · split at h <;> simp [AeadResult.errOf] at h
        · intro h
          exact absurd hallow h
      · intro h1 h2
        exfalso
        simp only [check_alias, Bool.or_eq_true, decide_eq_true_eq] at hca
        omega

/-- Witness for C4 at concrete regions: input `[10, 14)`, output starting
strictly inside at `12`. -/
theorem overlap_policy_witness :
    EVP_AEAD_CTX_seal
        { aead := EVP_aead_aes_128_gcm, key := List.replicate 16 0, tag_len := 16 }
        12 64 (List.replicate 12 1) 10 [1, 2, 3, 4] []
        = .fail .InvalidBufferOverlap 0 [] ∧
      EVP_AEAD_CTX_open
        { aead := EVP_aead_aes_128_gcm, key := List.replicate 16 0, tag_len := 16 }
        12 64 (List.replicate 12 1) 10 [1, 2, 3, 4] []
        = .fail .InvalidBufferOverlap 0 [] :=
  (overlap_policy
    { aead := EVP_aead_aes_128_gcm, key := List.replicate 16 0, tag_len := 16 }
    (List.replicate 12 1) (by decide) 10 12 64 [1, 2, 3, 4] []).2.2
    (by decide) (by decide)

/-- C5: with the nonce and aliasing validations passing, a seal call whose
output capacity is strictly less than the plaintext length plus the context's
resolved tag length fails with `OutputBufferTooSmall` and writes zero bytes;
otherwise it succeeds and reports exactly the plaintext length plus the
resolved tag length (the per-call ciphertext expansion) bytes written. -/
theorem seal_capacity (ctx : EVP_AEAD_CTX) (out_ptr max_out_len : Nat)
    (nonce : List Nat) (in_ptr : Nat) (input ad : List Nat)
    (hn : nonce.length = ctx.aead.nonce_len)
    (halias : check_alias in_ptr input.length out_ptr = true) :
    (max_out_len < input.length + ctx.tag_len →
      EVP_AEAD_CTX_seal ctx out_ptr max_out_len nonce in_ptr input ad
        = .fail .OutputBufferTooSmall 0 []) ∧
    (input.length + ctx.tag_len ≤ max_out_len →
      EVP_AEAD_CTX_seal ctx out_ptr max_out_len nonce in_ptr input ad
        = .ok (input.length + ctx.tag_len)
            (aead_model_seal ctx.aead.alg_id ctx.key ctx.tag_len nonce ad input)) := by
  constructor
  · intro h
    simp [EVP_AEAD_CTX_seal, hn, halias, h]
  · intro h
    simp [EVP_AEAD_CTX_seal, hn, halias, Nat.not_lt.mpr h, aead_model_seal_length]

/-- Witness for C5: a two-byte seal into a buffer of capacity 17 < 2 + 16
fails with `OutputBufferTooSmall` and writes nothing. -/
theorem seal_capacity_witness :
    EVP_AEAD_CTX_seal
        { aead := EVP_aead_aes_128_gcm, key := List.replicate 16 0, tag_len := 16 }
        0 17 (List.replicate 12 1) 0 [9, 8] [5]
      = .fail .OutputBufferTooSmall 0 [] :=
  (seal_capacity
    { aead := EVP_aead_aes_128_gcm, key := List.replicate 16 0, tag_len := 16 }
    0 17 (List.replicate 12 1) 0 [9, 8] [5] (by decide) (by decide)).1 (by decide)

/-- C6: an open call whose output capacity is at least the ciphertext length
never fails with `OutputBufferTooSmall`, and on success the recovered
plaintext is never longer than the ciphertext. -/
theorem open_capacity (ctx : EVP_AEAD_CTX) (out_ptr max_out_len : Nat)
    (nonce : List Nat) (in_ptr : Nat) (input ad : List Nat)
    (hcap : input.length ≤ max_out_len) :
    (EVP_AEAD_CTX_open ctx out_ptr max_out_len nonce in_ptr input ad).errOf
        ≠ some .OutputBufferTooSmall ∧
    (∀ n w, EVP_AEAD_CTX_open ctx out_ptr max_out_len nonce in_ptr input ad
        = .ok n w → n = w.length ∧ n ≤ input.length) := by
  constructor
  · rw [EVP_AEAD_CTX_open]
    split
    · simp [AeadResult.errOf]
    · split
      · simp [AeadResult.errOf]
      · split
        · omega
        · split <;> simp [AeadResult.errOf]
  · intro n w hok
    rw [EVP_AEAD_CTX_open] at hok
    split at hok
    · exact absurd hok (by simp)
    · split at hok
      · exact absurd hok (by simp)
      · split at hok
        · exact absurd hok (by simp)
        · split at hok
          · exact absurd hok (by simp)
          · rename_i pt hpt
            obtain ⟨h1, h2⟩ := AeadResult.ok.inj hok
            subst h1
            subst h2
            exact ⟨rfl, aead_model_open_length _ _ _ _ _ _ _ hpt⟩

/-- Witness for C6: opening a valid eighteen-byte sealed message with
capacity eighteen does not fail with `OutputBufferTooSmall`, and a successful
result never exceeds the ciphertext length. -/
theorem open_capacity_witness :
    (EVP_AEAD_CTX_open
        { aead := EVP_aead_aes_128_gcm, key := List.replicate 16 0, tag_len := 16 }
        0 18 (List.replicate 12 1) 0
        (aead_model_seal 1 (List.replicate 16 0) 16 (List.replicate 12 1) [5] [9, 8])
        [5]).errOf
      ≠ some .OutputBufferTooSmall :=
  (open_capacity
    { aead := EVP_aead_aes_128_gcm, key := List.replicate 16 0, tag_len := 16 }
    0 18 (List.replicate 12 1) 0
    (aead_model_seal 1 (List.replicate 16 0) 16 (List.replicate 12 1) [5] [9, 8])
    [5] (by decide)).1

/-- C8: a seal or open call whose nonce length differs from the bound
descriptor's nonce length fails with `NonceLengthMismatch`, reports zero
bytes written and produces no output, whatever the other arguments. -/
theorem nonce_length_enforced (ctx : EVP_AEAD_CTX) (out_ptr max_out_len : Nat)
    (nonce : List Nat) (in_ptr : Nat) (input ad : List Nat)
    (hn : nonce.length ≠ ctx.aead.nonce_len) :
    EVP_AEAD_CTX_seal ctx out_ptr max_out_len nonce in_ptr input ad
        = .fail .NonceLengthMismatch 0 [] ∧
      EVP_AEAD_CTX_open ctx out_ptr max_out_len nonce in_ptr input ad
        = .fail .NonceLengthMismatch 0 [] := by
  constructor <;> simp [EVP_AEAD_CTX_seal, EVP_AEAD_CTX_open, hn]

/-- Witness for C8: sealing or opening with a thirteen-byte nonce (one byte
longer than required) fails with `NonceLengthMismatch` and no output. -/
theorem nonce_length_enforced_witness :
    EVP_AEAD_CTX_seal
        { aead := EVP_aead_aes_128_gcm, key := List.replicate 16 0, tag_len := 16 }
        0 64 (List.replicate 13 1) 0 [9, 8] []
        = .fail .NonceLengthMismatch 0 [] ∧
      EVP_AEAD_CTX_open
        { aead := EVP_aead_aes_128_gcm, key := List.replicate 16 0, tag_len := 16 }
        0 64 (List.replicate 13 1) 0 [9, 8] []
        = .fail .NonceLengthMismatch 0 [] :=
  nonce_length_enforced
    { aead := EVP_aead_aes_128_gcm, key := List.replicate 16 0, tag_len := 16 }
    0 64 (List.replicate 13 1) 0 [9, 8] [] (by decide)

/-- C9: seal is deterministic — two contexts holding the same descriptor,
key and resolved tag length produce identical results (bytes and reported
length) on the same nonce, additional data and plaintext. -/
theorem seal_deterministic (ctx1 ctx2 : EVP_AEAD_CTX)
    (hd : ctx1.aead = ctx2.aead) (hk : ctx1.key = ctx2.key)
    (ht : ctx1.tag_len = ctx2.tag_len)
    (out_ptr max_out_len : Nat) (nonce : List Nat) (in_ptr : Nat)
    (input ad : List Nat) :
    EVP_AEAD_CTX_seal ctx1 out_ptr max_out_len nonce in_ptr input ad
      = EVP_AEAD_CTX_seal ctx2 out_ptr max_out_len nonce in_ptr input ad := by
  obtain ⟨a1, k1, t1⟩ := ctx1
  obtain ⟨a2, k2, t2⟩ := ctx2
  cases hd
  cases hk
  cases ht
  rfl

/-- Witness for C9: two separately built but identically configured contexts
seal the same message to the same result. -/
theorem seal_deterministic_witness :
    EVP_AEAD_CTX_seal
        { aead := EVP_aead_aes_128_gcm, key := List.replicate 16 3, tag_len := 16 }
        0 64 (List.replicate 12 1) 0 [9, 8] [5]
      = EVP_AEAD_CTX_seal
        { aead := EVP_aead_aes_128_gcm, key := List.replicate 16 3, tag_len := 16 }
        0 64 (List.replicate 12 1) 0 [9, 8] [5] :=
  seal_deterministic
    { aead := EVP_aead_aes_128_gcm, key := List.replicate 16 3, tag_len := 16 }
    { aead := EVP_aead_aes_128_gcm, key := List.replicate 16 3, tag_len := 16 }
    rfl rfl rfl 0 64 (List.replicate 12 1) 0 [9, 8] [5]

/-- C10: `EVP_AEAD_MAX_OVERHEAD` equals 16, bounds the max-overhead query of
every built-in descriptor, and a seal output buffer of the plaintext length
plus `EVP_AEAD_MAX_OVERHEAD` bytes is large enough for any context built on a
built-in descriptor (given the nonce and aliasing validations pass). -/
theorem max_overhead_bound :
    EVP_AEAD_MAX_OVERHEAD = 16 ∧
    (∀ aead ∈ builtin_aeads, EVP_AEAD_max_overhead aead ≤ EVP_AEAD_MAX_OVERHEAD) ∧
    (∀ aead ∈ builtin_aeads, ∀ (key : List Nat) (tl_req : Nat) (ctx : EVP_AEAD_CTX),
      EVP_AEAD_CTX_init aead key tl_req = .ok ctx →
      ∀ (out_ptr in_ptr : Nat) (nonce input ad : List Nat),
        nonce.length = aead.nonce_len →
        check_alias in_ptr input.length out_ptr = true →
        (EVP_AEAD_CTX_seal ctx out_ptr (input.length + EVP_AEAD_MAX_OVERHEAD)
            nonce in_ptr input ad).errOf = none) := by
  refine ⟨rfl, ?_, ?_⟩
  · intro aead h
    simp [builtin_aeads] at h
    rcases h with rfl | rfl | rfl <;> decide
  · intro aead haead key tl_req ctx hinit out_ptr in_ptr nonce input ad hn hca
    obtain ⟨-, hle, hc⟩ := init_ok_elim aead key tl_req ctx hinit
    subst hc
    have hmax : aead.max_tag_len = 16 ∧ aead.default_tag_len = 16 := by
      simp [builtin_aeads] at haead
      rcases haead with rfl | rfl | rfl <;> exact ⟨rfl, rfl⟩
    have htl : (if tl_req = EVP_AEAD_DEFAULT_TAG_LENGTH
        then aead.default_tag_len else tl_req) ≤ 16 := by
      by_cases h0 : tl_req = EVP_AEAD_DEFAULT_TAG_LENGTH <;> simp [h0] <;> omega
    have hcap : ¬ (input.length + EVP_AEAD_MAX_OVERHEAD <
        input.length + (if tl_req = EVP_AEAD_DEFAULT_TAG_LENGTH
          then aead.default_tag_len else tl_req)) := by
      rw [EVP_AEAD_MAX_OVERHEAD]
      omega
    simp [EVP_AEAD_CTX_seal, hn, hca, hcap, AeadResult.errOf]

/-- Witness for C10: a three-byte seal into a buffer of capacity 3 + 16
succeeds on a context built on the stream-cipher descriptor. -/
theorem max_overhead_bound_witness :
    (EVP_AEAD_CTX_seal
        { aead := EVP_aead_chacha20_poly1305, key := List.replicate 32 7,
          tag_len := 16 }
        0 (3 + EVP_AEAD_MAX_OVERHEAD) (List.replicate 12 2) 0 [1, 2, 3] [4]).errOf
      = none :=
  max_overhead_bound.2.2 EVP_aead_chacha20_poly1305 (by decide)
    (List.replicate 32 7) 0
    { aead := EVP_aead_chacha20_poly1305, key := List.replicate 32 7,
      tag_len := 16 }
    rfl 0 0 (List.replicate 12 2) [1, 2, 3] [4] (by decide) (by decide)

/-- C3: for a context on a built-in descriptor configured with the default
tag length, flipping any single bit of the sealed message's ciphertext
payload, of its tag region, or of the additional data makes the subsequent
open call on the modified input fail with `AuthenticationFailed`.  A flip of
bit `k` of the byte `x` at an arbitrary position is expressed by the
decomposition `u ++ x :: v` of the affected region, with the byte replaced by
`x ^^^ 2 ^ k`. -/
theorem open_tamper_detect (aead : EVP_AEAD) (haead : aead ∈ builtin_aeads)
    (key nonce ad pt : List Nat) (ctx : EVP_AEAD_CTX)
    (hn : nonce.length = aead.nonce_len)
    (hinit : EVP_AEAD_CTX_init aead key EVP_AEAD_DEFAULT_TAG_LENGTH = .ok ctx)
    (k : Nat) :
    (∀ (u : List Nat) (x : Nat) (v : List Nat),
      xor_keystream aead.alg_id key nonce 0 pt = u ++ x :: v →
      EVP_AEAD_CTX_open ctx 0 (pt.length + ctx.tag_len) nonce 0
        ((u ++ (x ^^^ 2 ^ k) :: v) ++
          tag_bytes aead.alg_id ctx.tag_len key nonce ad
            (xor_keystream aead.alg_id key nonce 0 pt)) ad
        = .fail .AuthenticationFailed 0 []) ∧
    (∀ (u : List Nat) (x : Nat) (v : List Nat),
      tag_bytes aead.alg_id ctx.tag_len key nonce ad
          (xor_keystream aead.alg_id key nonce 0 pt) = u ++ x :: v →
      EVP_AEAD_CTX_open ctx 0 (pt.length + ctx.tag_len) nonce 0
        (xor_keystream aead.alg_id key nonce 0 pt ++ (u ++ (x ^^^ 2 ^ k) :: v)) ad
        = .fail .AuthenticationFailed 0 []) ∧
    (∀ (u : List Nat) (x : Nat) (v : List Nat),
      ad = u ++ x :: v →
      EVP_AEAD_CTX_open ctx 0 (pt.length + ctx.tag_len) nonce 0
        (aead_model_seal aead.alg_id key ctx.tag_len nonce ad pt)
        (u ++ (x ^^^ 2 ^ k) :: v)
        = .fail .AuthenticationFailed 0 []) := by
  obtain ⟨-, -, hc⟩ := init_ok_elim aead key EVP_AEAD_DEFAULT_TAG_LENGTH ctx hinit
  rw [if_pos rfl] at hc
  subst hc
  have htl : aead.default_tag_len ≠ 0 := builtin_default_tag_len_ne_zero aead haead
  have hb : (2 : Nat) ^ k ≠ 0 := two_pow_ne_zero k
  have hel : (xor_keystream aead.alg_id key nonce 0 pt).length = pt.length :=
    xor_keystream_length _ _ _ _ _
  refine ⟨?_, ?_, ?_⟩
  · intro u x v hu
    have hul : (u ++ (x ^^^ 2 ^ k) :: v).length = pt.length := by
      have h1 := congrArg List.length hu
      rw [hel] at h1
      simp only [List.length_append, List.length_cons] at h1 ⊢
      omega
    have htgl : (tag_bytes aead.alg_id aead.default_tag_len key nonce ad
        (xor_keystream aead.alg_id key nonce 0 pt)).length
        = aead.default_tag_len := by
      simp [tag_bytes]
    have hcap : ((u ++ (x ^^^ 2 ^ k) :: v) ++
        tag_bytes aead.alg_id aead.default_tag_len key nonce ad
          (xor_keystream aead.alg_id key nonce 0 pt)).length
        ≤ pt.length + aead.default_tag_len := by
      simp only [List.length_append, List.length_cons, htgl] at hul ⊢
      omega
    have hxs : xor_sum (u ++ (x ^^^ 2 ^ k) :: v)
        = xor_sum (xor_keystream aead.alg_id key nonce 0 pt) ^^^ 2 ^ k := by
      rw [hu]
      exact xor_sum_flip _ u x v
    have htb : tag_byte aead.alg_id key nonce ad (u ++ (x ^^^ 2 ^ k) :: v)
        = tag_byte aead.alg_id key nonce ad
            (xor_keystream aead.alg_id key nonce 0 pt) ^^^ 2 ^ k := by
      simp only [tag_byte]
      rw [hxs, ← Nat.xor_assoc]
    have hne : tag_bytes aead.alg_id aead.default_tag_len key nonce ad
          (xor_keystream aead.alg_id key nonce 0 pt)
        ≠ tag_bytes aead.alg_id aead.default_tag_len key nonce ad
            (u ++ (x ^^^ 2 ^ k) :: v) := by
      simp only [tag_bytes]
      rw [htb]
      exact replicate_ne_replicate _ htl _ _ (Ne.symm (xor_ne_of_ne_zero _ _ hb))
    have hnone := model_open_mismatch aead.alg_id key aead.default_tag_len nonce ad
      (u ++ (x ^^^ 2 ^ k) :: v)
      (tag_bytes aead.alg_id aead.default_tag_len key nonce ad
        (xor_keystream aead.alg_id key nonce 0 pt)) htgl hne
    exact open_fail_auth _ _ _ _ _ _ _ hn (by simp [check_alias]) hcap hnone
  · intro u x v hu
    have hst : (u ++ (x ^^^ 2 ^ k) :: v).length = aead.default_tag_len := by
      have h1 := congrArg List.length hu
      simp only [tag_bytes, List.length_replicate, List.length_append,
        List.length_cons] at h1 ⊢
      omega
    have hne : (u ++ (x ^^^ 2 ^ k) :: v)
        ≠ tag_bytes aead.alg_id aead.default_tag_len key nonce ad
            (xor_keystream aead.alg_id key nonce 0 pt) := by
      rw [hu]
      exact append_cons_ne u v _ x (xor_ne_of_ne_zero x _ hb)
    have hcap : (xor_keystream aead.alg_id key nonce 0 pt ++
        (u ++ (x ^^^ 2 ^ k) :: v)).length
        ≤ pt.length + aead.default_tag_len := by
      simp only [List.length_append, List.length_cons] at hst ⊢
      omega
    have hnone := model_open_mismatch aead.alg_id key aead.default_tag_len nonce ad
      (xor_keystream aead.alg_id key nonce 0 pt) (u ++ (x ^^^ 2 ^ k) :: v) hst hne
    exact open_fail_auth _ _ _ _ _ _ _ hn (by simp [check_alias]) hcap hnone
  · intro u x v hadp
    have hadl : xor_sum (u ++ (x ^^^ 2 ^ k) :: v) = xor_sum ad ^^^ 2 ^ k := by
      rw [hadp]
      exact xor_sum_flip _ u x v
    have htb : tag_byte aead.alg_id key nonce (u ++ (x ^^^ 2 ^ k) :: v)
          (xor_keystream aead.alg_id key nonce 0 pt)
        = tag_byte aead.alg_id key nonce ad
            (xor_keystream aead.alg_id key nonce 0 pt) ^^^ 2 ^ k := by
      simp only [tag_byte]
      rw [hadl, ← Nat.xor_assoc]
      exact xor_swap_right _ _ _
    have hne : tag_bytes aead.alg_id aead.default_tag_len key nonce ad
          (xor_keystream aead.alg_id key nonce 0 pt)
        ≠ tag_bytes aead.alg_id aead.default_tag_len key nonce
            (u ++ (x ^^^ 2 ^ k) :: v)
            (xor_keystream aead.alg_id key nonce 0 pt) := by
      simp only [tag_bytes]
      rw [htb]
      exact replicate_ne_replicate _ htl _ _ (Ne.symm (xor_ne_of_ne_zero _ _ hb))
    have htgl : (tag_bytes aead.alg_id aead.default_tag_len key nonce ad
        (xor_keystream aead.alg_id key nonce 0 pt)).length
        = aead.default_tag_len := by
      simp [tag_bytes]
    have hnone := model_open_mismatch aead.alg_id key aead.default_tag_len nonce
      (u ++ (x ^^^ 2 ^ k) :: v) (xor_keystream aead.alg_id key nonce 0 pt)
      (tag_bytes aead.alg_id aead.default_tag_len key nonce ad
        (xor_keystream aead.alg_id key nonce 0 pt)) htgl hne
    have hcap : (aead_model_seal aead.alg_id key aead.default_tag_len nonce ad pt).length
        ≤ pt.length + aead.default_tag_len := by
      rw [aead_model_seal_length]
    exact open_fail_auth _ _ _ _ _ _ _ hn (by simp [check_alias]) hcap hnone

/-- Witness for C3: flipping the lowest bit of the single additional-data
byte of a concretely sealed message makes the open call fail with
`AuthenticationFailed`. -/
theorem open_tamper_detect_witness :
    EVP_AEAD_CTX_open
        { aead := EVP_aead_aes_128_gcm, key := List.replicate 16 0, tag_len := 16 }
        0 (2 + 16) (List.replicate 12 1) 0
        (aead_model_seal 1 (List.replicate 16 0) 16 (List.replicate 12 1) [5] [9, 8])
        ([] ++ (5 ^^^ 2 ^ 0) :: [])
      = .fail .AuthenticationFailed 0 [] :=
  (open_tamper_detect EVP_aead_aes_128_gcm (by decide) (List.replicate 16 0)
    (List.replicate 12 1) [5] [9, 8]
    { aead := EVP_aead_aes_128_gcm, key := List.replicate 16 0, tag_len := 16 }
    (by decide) rfl 0).2.2 [] 5 [] rfl

end Aead
